import Mathlib

/-!
Verification of the NeuroFinder update tool's staging / validation / commit
pipeline (`main/frontend.py` and `main/backend.py`).

The embedding models the module-level state of the two GUI scripts:

* `loading_files` — the Staging Registry, an ordered Python list of
  `{"path": str, "data_type": StringVar}` dictionaries;
* `loaded_files`  — the Committed Registry, same element shape;
* `db_handler`    — the external Record Store (`DbHandler`), abstracted by
  boolean oracles: `validate` for `db_handler.validate_file_type`,
  `recordOk` for whether `db_handler.start_searching_process` /
  `db_handler.start_process` returns normally (false = the call raises),
  and `parse` for whether `pd.read_csv` / `pd.read_excel` succeeds on a path.

GUI rendering (`update_loading_list`, `update_loaded_list`, message boxes)
carries no registry state; message-box traffic is reflected in the
`mismatchErrors` field and the outcome labels of each operation's result.
-/

namespace NeuroFinder

/-- The closed category set `FILE_TYPES = ["tsun", "cb", "pb", "other"]`. -/
inductive Category
  | tsun
  | cb
  | pb
  | other
deriving DecidableEq

/-- One element of `loading_files` / `loaded_files`: a dictionary
`{"path": filepath, "data_type": StringVar(value=...)}`. -/
structure FileInfo where
  path : String
  data_type : Category
deriving DecidableEq

/-- Sample staged entry used as a concrete input in witnesses. -/
def aCsv : FileInfo := ⟨"a.csv", Category.tsun⟩

/-- Sample staged entry used as a concrete input in witnesses. -/
def bXlsx : FileInfo := ⟨"b.xlsx", Category.cb⟩

/-- Sample staged entry used as a concrete input in witnesses. -/
def cCsv : FileInfo := ⟨"c.csv", Category.pb⟩

/-- Sample committed entry used as a concrete input in witnesses. -/
def zCsv : FileInfo := ⟨"z.csv", Category.other⟩

/-- Python's `str.endswith(suffix)`: `suffix` is a suffix of the string
(exact, case-sensitive character match). -/
def pyEndsWith (s suffix : String) : Bool :=
  suffix.toList.isSuffixOf s.toList

/-- Outcome of one `read_file` call, i.e. which message box (if any) was
shown and whether an entry was appended. -/
inductive AddOutcome
  | added
  | unsupportedFormat
  | readFailure
deriving DecidableEq

/-- `read_file(filepath)` from `frontend.py` (lines 34–47): dispatch on the
extension via `str.endswith`, attempt the parse, and on success append
`{"path": filepath, "data_type": StringVar(value="tsun")}` to
`loading_files`.  `parse` abstracts whether `pd.read_csv` (`.csv` branch)
or `pd.read_excel` (`.xlsx` branch) returns without raising; the `except`
clause reports the failure and adds nothing.  `backend.py`'s `read_file`
has the same registry effect (no entry on parse failure), with the
exception reaching the toolkit's callback handler instead of a dialog. -/
def read_file (parse : String → Bool) (filepath : String)
    (loading : List FileInfo) : List FileInfo × AddOutcome :=
  if pyEndsWith filepath ".csv" then
    if parse filepath then
      (loading ++ [⟨filepath, Category.tsun⟩], AddOutcome.added)
    else
      (loading, AddOutcome.readFailure)
  else if pyEndsWith filepath ".xlsx" then
    if parse filepath then
      (loading ++ [⟨filepath, Category.tsun⟩], AddOutcome.added)
    else
      (loading, AddOutcome.readFailure)
  else
    (loading, AddOutcome.unsupportedFormat)

/-- Outcome of `delete_loading_file`. -/
inductive DeleteOutcome
  | deleted
  | indexError
deriving DecidableEq

/-- `delete_loading_file(index)`: `del loading_files[index]`.  For a
non-negative index, Python's `del` removes the element at that position
when `index < len(loading_files)` and raises `IndexError`, leaving the
list unchanged, otherwise. -/
def delete_loading_file (index : Nat) (loading : List FileInfo) :
    List FileInfo × DeleteOutcome :=
  if index < loading.length then
    (loading.eraseIdx index, DeleteOutcome.deleted)
  else
    (loading, DeleteOutcome.indexError)

/-- Which exit path one `upload_all_files` invocation took. -/
inductive CommitOutcome
  /-- `loading_files` empty: "No files to upload." error, early return. -/
  | noFilesStaged
  /-- Every entry failed validation: `if not valid_files: return` — no
  success notification, registries untouched (frontend only). -/
  | allRejected
  /-- The record loop finished, staging was cleared, success reported. -/
  | success
  /-- A record call raised: the exception propagates out of the handler
  before `loading_files.clear()` runs. -/
  | recordFault
deriving DecidableEq

/-- Post-state and observable calls of one `upload_all_files` invocation. -/
structure CommitResult where
  /-- `loading_files` after the call (Staging Registry). -/
  loading : List FileInfo
  /-- `loaded_files` after the call (Committed Registry). -/
  loaded : List FileInfo
  /-- The `(path, category)` record calls issued to the Record Store, in
  order, including a call that raised. -/
  recordCalls : List (String × Category)
  /-- The entries for which a per-file mismatch error box was shown, in
  registry order (one `CategoryMismatch` report each). -/
  mismatchErrors : List FileInfo
  outcome : CommitOutcome
deriving DecidableEq

/-- The record loop shared by both scripts:
`for file_info in files: db_handler.record(...); loaded_files.append(file_info)`.
Returns the record calls issued, the entries appended to `loaded_files`,
and whether the loop ran to completion (`false` = some call raised, which
also aborts the iteration before the append of the faulting entry). -/
def recordLoop (recordOk : String → Category → Bool) :
    List FileInfo → List (String × Category) × List FileInfo × Bool
  | [] => ([], [], true)
  | f :: rest =>
    if recordOk f.path f.data_type then
      let r := recordLoop recordOk rest
      ((f.path, f.data_type) :: r.1, f :: r.2.1, r.2.2)
    else
      ([(f.path, f.data_type)], [], false)

/-- `upload_all_files()` from `frontend.py` (lines 90–115), the validating
pipeline: guard on empty staging; split the staged entries into
`valid_files` and the rejected rest (one error box per rejected entry);
return early if nothing validated; otherwise run the record loop and, if
it completes, clear `loading_files` and report success. -/
def upload_all_files (validate recordOk : String → Category → Bool)
    (loading loaded : List FileInfo) : CommitResult :=
  if loading.isEmpty then
    ⟨loading, loaded, [], [], CommitOutcome.noFilesStaged⟩
  else
    let valid_files := loading.filter fun f => validate f.path f.data_type
    let rejected := loading.filter fun f => !(validate f.path f.data_type)
    if valid_files.isEmpty then
      ⟨loading, loaded, [], rejected, CommitOutcome.allRejected⟩
    else
      let r := recordLoop recordOk valid_files
      if r.2.2 then
        ⟨[], loaded ++ r.2.1, r.1, rejected, CommitOutcome.success⟩
      else
        ⟨loading, loaded ++ r.2.1, r.1, rejected, CommitOutcome.recordFault⟩

/-- `upload_all_files()` from `backend.py` (lines 83–96), the
non-validating pipeline: guard on empty staging, then record every staged
entry (no validation step), clear staging on completion. -/
def upload_all_files_backend (recordOk : String → Category → Bool)
    (loading loaded : List FileInfo) : CommitResult :=
  if loading.isEmpty then
    ⟨loading, loaded, [], [], CommitOutcome.noFilesStaged⟩
  else
    let r := recordLoop recordOk loading
    if r.2.2 then
      ⟨[], loaded ++ r.2.1, r.1, [], CommitOutcome.success⟩
    else
      ⟨loading, loaded ++ r.2.1, r.1, [], CommitOutcome.recordFault⟩

/-- Outcome of `export_all_files`. -/
inductive ExportOutcome
  | nothingToExport
  | exported
deriving DecidableEq

/-- `export_all_files()`: guard on empty `loaded_files`, else delegate to
`db_handler.export(destination)`.  The second component lists the paths
passed to the Record Store's export capability. -/
def export_all_files (loaded : List FileInfo) (dest : String) :
    ExportOutcome × List String :=
  if loaded.isEmpty then
    (ExportOutcome.nothingToExport, [])
  else
    (ExportOutcome.exported, [dest])

/-! ## Helper lemmas -/

theorem isEmpty_false_of_ne_nil {l : List FileInfo} (h : l ≠ []) :
    l.isEmpty = false := by
  cases l with
  | nil => exact absurd rfl h
  | cons a l => rfl

/-- If every record call in the batch returns normally, the record loop
records every entry in order and appends every entry to the Committed
Registry. -/
theorem recordLoop_all_ok (recordOk : String → Category → Bool)
    (l : List FileInfo) (h : ∀ f ∈ l, recordOk f.path f.data_type = true) :
    recordLoop recordOk l = (l.map fun f => (f.path, f.data_type), l, true) := by
  induction l with
  | nil => rfl
  | cons f rest ih =>
    have hf := h f (List.mem_cons_self f rest)
    have hrest := ih fun g hg => h g (List.mem_cons_of_mem f hg)
    simp [recordLoop, hf, hrest]

/-- If the record call raises on entry `f` after a run of entries that all
record normally, the loop issues the calls up to and including `f`,
appends only the entries before `f`, and aborts. -/
theorem recordLoop_fault (recordOk : String → Category → Bool)
    (l₁ l₂ : List FileInfo) (f : FileInfo)
    (h1 : ∀ g ∈ l₁, recordOk g.path g.data_type = true)
    (hf : recordOk f.path f.data_type = false) :
    recordLoop recordOk (l₁ ++ f :: l₂) =
      ((l₁ ++ [f]).map fun g => (g.path, g.data_type), l₁, false) := by
  induction l₁ with
  | nil => simp [recordLoop, hf]
  | cons g rest ih =>
    have hg := h1 g (List.mem_cons_self g rest)
    have hrest := ih fun g' hg' => h1 g' (List.mem_cons_of_mem g hg')
    simp [recordLoop, hg, hrest]

/-- A string that ends with `v` cannot also end with a `w` that is neither
a suffix nor an extension of `v`. -/
theorem pyEndsWith_disjoint {p v w : String}
    (hv : pyEndsWith p v = true)
    (h1 : ¬ (v.toList <:+ w.toList))
    (h2 : ¬ (w.toList <:+ v.toList)) :
    pyEndsWith p w = false := by
  rw [pyEndsWith, List.isSuffixOf_iff_suffix] at hv
  rw [pyEndsWith, ← Bool.not_eq_true]
  intro hw
  rw [List.isSuffixOf_iff_suffix] at hw
  rcases List.suffix_or_suffix_of_suffix hv hw with h | h
  · exact h1 h
  · exact h2 h

/-- A path ending in `.CSV` ends in neither recognized suffix. -/
theorem not_recognized_of_CSV {p : String} (h : pyEndsWith p ".CSV" = true) :
    pyEndsWith p ".csv" = false ∧ pyEndsWith p ".xlsx" = false :=
  ⟨pyEndsWith_disjoint h (by decide) (by decide),
   pyEndsWith_disjoint h (by decide) (by decide)⟩

/-- A path ending in `.Xlsx` ends in neither recognized suffix. -/
theorem not_recognized_of_Xlsx {p : String} (h : pyEndsWith p ".Xlsx" = true) :
    pyEndsWith p ".csv" = false ∧ pyEndsWith p ".xlsx" = false :=
  ⟨pyEndsWith_disjoint h (by decide) (by decide),
   pyEndsWith_disjoint h (by decide) (by decide)⟩

/-! ## Claim theorems -/

/-- C4: a commit requested while the Staging Registry is empty fails with
`NoFilesStagedError` ("No files to upload."), performs no record call, and
leaves both the Staging Registry and the Committed Registry unchanged — in
both the validating (`frontend.py`) and non-validating (`backend.py`)
pipeline. -/
theorem commit_empty_staging (validate recordOk : String → Category → Bool)
    (loaded : List FileInfo) :
    upload_all_files validate recordOk [] loaded =
      ⟨[], loaded, [], [], CommitOutcome.noFilesStaged⟩ ∧
    upload_all_files_backend recordOk [] loaded =
      ⟨[], loaded, [], [], CommitOutcome.noFilesStaged⟩ :=
  ⟨rfl, rfl⟩

/-- C7: `remove(index)` (`delete_loading_file`) on a registry of length `N`
with `index < N` deletes exactly the entry at that position, yielding the
length-`N-1` registry `take index ++ drop (index+1)` (remaining entries in
the same relative order); an out-of-bounds index fails with `IndexError`
and leaves the registry unchanged. -/
theorem remove_by_index (index : Nat) (loading : List FileInfo) :
    (index < loading.length →
      delete_loading_file index loading =
        (loading.take index ++ loading.drop (index + 1), DeleteOutcome.deleted) ∧
      (delete_loading_file index loading).1.length = loading.length - 1) ∧
    (loading.length ≤ index →
      delete_loading_file index loading = (loading, DeleteOutcome.indexError)) := by
  constructor
  · intro h
    constructor
    · simp [delete_loading_file, h, List.eraseIdx_eq_take_drop_succ]
    · simp [delete_loading_file, h, List.length_eraseIdx]
  · intro h
    simp [delete_loading_file, Nat.not_lt.mpr h]

/-- Witness for C7 at a concrete three-entry registry: in-bounds removal at
index 1 and out-of-bounds removal at index 5. -/
theorem remove_by_index_witness :
    (delete_loading_file 1
        [⟨"a.csv", Category.tsun⟩, ⟨"b.csv", Category.cb⟩, ⟨"c.csv", Category.pb⟩] =
      ([⟨"a.csv", Category.tsun⟩, ⟨"b.csv", Category.cb⟩,
          ⟨"c.csv", Category.pb⟩].take 1 ++
        [⟨"a.csv", Category.tsun⟩, ⟨"b.csv", Category.cb⟩,
          ⟨"c.csv", Category.pb⟩].drop 2, DeleteOutcome.deleted) ∧
      (delete_loading_file 1
        [⟨"a.csv", Category.tsun⟩, ⟨"b.csv", Category.cb⟩,
          ⟨"c.csv", Category.pb⟩]).1.length = 3 - 1) ∧
    delete_loading_file 5 [⟨"a.csv", Category.tsun⟩] =
      ([⟨"a.csv", Category.tsun⟩], DeleteOutcome.indexError) :=
  ⟨(remove_by_index 1 _).1 (by decide),
   (remove_by_index 5 [⟨"a.csv", Category.tsun⟩]).2 (by decide)⟩

/-- C8: export requested while the Committed Registry is empty fails with
`NothingToExportError` ("No files to export.") and issues no call to the
Record Store's export capability; with a non-empty Committed Registry the
operation delegates to the Record Store's export on the destination path. -/
theorem export_gating (loaded : List FileInfo) (dest : String) :
    (loaded = [] →
      export_all_files loaded dest = (ExportOutcome.nothingToExport, [])) ∧
    (loaded ≠ [] →
      export_all_files loaded dest = (ExportOutcome.exported, [dest])) := by
  constructor
  · rintro rfl
    rfl
  · intro h
    simp [export_all_files, isEmpty_false_of_ne_nil h]

/-- Witness for C8: empty and non-empty Committed Registries. -/
theorem export_gating_witness :
    export_all_files [] "main/new1.xlsx" = (ExportOutcome.nothingToExport, []) ∧
    export_all_files [⟨"a.csv", Category.tsun⟩] "main/new1.xlsx" =
      (ExportOutcome.exported, ["main/new1.xlsx"]) :=
  ⟨(export_gating [] "main/new1.xlsx").1 rfl,
   (export_gating [⟨"a.csv", Category.tsun⟩] "main/new1.xlsx").2 (by decide)⟩

/-- C1: in validating mode, committing a non-empty batch in which at least
one entry validates and at least one is rejected (record calls returning
normally) clears the Staging Registry entirely, appends exactly the
validated entries to the Committed Registry in staging order with their
declared categories, and shows one `CategoryMismatch` error box per
rejected entry. -/
theorem commit_mixed_batch (validate recordOk : String → Category → Bool)
    (loading loaded : List FileInfo)
    (hpass : ∃ f ∈ loading, validate f.path f.data_type = true)
    (_hfail : ∃ f ∈ loading, validate f.path f.data_type = false)
    (hrec : ∀ f ∈ loading, validate f.path f.data_type = true →
      recordOk f.path f.data_type = true) :
    upload_all_files validate recordOk loading loaded =
      ⟨[], loaded ++ loading.filter (fun f => validate f.path f.data_type),
        (loading.filter (fun f => validate f.path f.data_type)).map
          (fun f => (f.path, f.data_type)),
        loading.filter (fun f => !(validate f.path f.data_type)),
        CommitOutcome.success⟩ := by
  obtain ⟨f0, hf0m, hf0⟩ := hpass
  have hne : loading ≠ [] := List.ne_nil_of_mem hf0m
  have hvne : loading.filter (fun f => validate f.path f.data_type) ≠ [] :=
    List.ne_nil_of_mem (List.mem_filter.mpr ⟨hf0m, hf0⟩)
  have hloop := recordLoop_all_ok recordOk
    (loading.filter (fun f => validate f.path f.data_type))
    (fun g hg => hrec g (List.mem_filter.mp hg).1 (List.mem_filter.mp hg).2)
  simp [upload_all_files, isEmpty_false_of_ne_nil hne,
    isEmpty_false_of_ne_nil hvne, hloop]

/-- Witness for C1: two staged files, the first validating (categories are
checked against `tsun` here) and the second rejected; all record calls
return normally. -/
theorem commit_mixed_batch_witness :
    upload_all_files (fun _ c => c == Category.tsun) (fun _ _ => true)
        [aCsv, bXlsx] [] =
      ⟨[], [] ++ [aCsv, bXlsx].filter
          (fun f => (fun _ c => c == Category.tsun) f.path f.data_type),
        ([aCsv, bXlsx].filter
          (fun f => (fun _ c => c == Category.tsun) f.path f.data_type)).map
          (fun f => (f.path, f.data_type)),
        [aCsv, bXlsx].filter
          (fun f => !((fun _ c => c == Category.tsun) f.path f.data_type)),
        CommitOutcome.success⟩ :=
  commit_mixed_batch (fun _ c => c == Category.tsun) (fun _ _ => true)
    [aCsv, bXlsx] [] (by decide) (by decide) (by decide)

/-- C2: in validating mode, committing a non-empty batch in which every
entry is rejected leaves the Staging Registry unchanged (same entries,
same order), leaves the Committed Registry unchanged, issues no record
call, and ends on the aggregate-failure path (early return after the
per-entry mismatch errors, with no success notification). -/
theorem commit_all_rejected (validate recordOk : String → Category → Bool)
    (loading loaded : List FileInfo) (hne : loading ≠ [])
    (hall : ∀ f ∈ loading, validate f.path f.data_type = false) :
    upload_all_files validate recordOk loading loaded =
      ⟨loading, loaded, [], loading, CommitOutcome.allRejected⟩ := by
  have hv : loading.filter (fun f => validate f.path f.data_type) = [] :=
    List.filter_eq_nil_iff.mpr fun f hf => by simp [hall f hf]
  have hr : loading.filter (fun f => !(validate f.path f.data_type)) = loading :=
    List.filter_eq_self.mpr fun f hf => by simp [hall f hf]
  simp [upload_all_files, isEmpty_false_of_ne_nil hne, hv, hr]

/-- Witness for C2: one staged entry whose declared category the validator
rejects. -/
theorem commit_all_rejected_witness :
    upload_all_files (fun _ _ => false) (fun _ _ => true) [aCsv] [zCsv] =
      ⟨[aCsv], [zCsv], [], [aCsv], CommitOutcome.allRejected⟩ :=
  commit_all_rejected (fun _ _ => false) (fun _ _ => true) [aCsv] [zCsv]
    (by decide) (by decide)

/-- C3: committing a non-empty batch in which every entry validates (record
calls returning normally) empties the Staging Registry and appends exactly
one committed entry per staged entry, in staging order, preserving each
path and declared category — and the non-validating pipeline, which treats
every entry as valid, does the same. -/
theorem commit_all_validated (validate recordOk : String → Category → Bool)
    (loading loaded : List FileInfo) (hne : loading ≠ [])
    (hall : ∀ f ∈ loading, validate f.path f.data_type = true)
    (hrec : ∀ f ∈ loading, recordOk f.path f.data_type = true) :
    upload_all_files validate recordOk loading loaded =
      ⟨[], loaded ++ loading, loading.map (fun f => (f.path, f.data_type)),
        [], CommitOutcome.success⟩ ∧
    upload_all_files_backend recordOk loading loaded =
      ⟨[], loaded ++ loading, loading.map (fun f => (f.path, f.data_type)),
        [], CommitOutcome.success⟩ := by
  have hv : loading.filter (fun f => validate f.path f.data_type) = loading :=
    List.filter_eq_self.mpr fun f hf => hall f hf
  have hr : loading.filter (fun f => !(validate f.path f.data_type)) = [] :=
    List.filter_eq_nil_iff.mpr fun f hf => by simp [hall f hf]
  have hloop := recordLoop_all_ok recordOk loading hrec
  constructor
  · simp [upload_all_files, isEmpty_false_of_ne_nil hne, hv, hr, hloop]
  · simp [upload_all_files_backend, isEmpty_false_of_ne_nil hne, hloop]

/-- Witness for C3: two staged entries, all validating, all recording. -/
theorem commit_all_validated_witness :
    upload_all_files (fun _ _ => true) (fun _ _ => true) [aCsv, bXlsx] [] =
      ⟨[], [] ++ [aCsv, bXlsx],
        [aCsv, bXlsx].map (fun f => (f.path, f.data_type)),
        [], CommitOutcome.success⟩ ∧
    upload_all_files_backend (fun _ _ => true) [aCsv, bXlsx] [] =
      ⟨[], [] ++ [aCsv, bXlsx],
        [aCsv, bXlsx].map (fun f => (f.path, f.data_type)),
        [], CommitOutcome.success⟩ :=
  commit_all_validated (fun _ _ => true) (fun _ _ => true) [aCsv, bXlsx] []
    (by decide) (by decide) (by decide)

/-- C9: when the validator accepts every staged `(path, category)` pair,
the validating pipeline (`frontend.py`) and the non-validating pipeline
(`backend.py`) coincide — same final Staging Registry, same Committed
Registry in the same order, same record calls in the same order — and if
additionally every record call returns normally and the batch is
non-empty, that common final Staging Registry is empty. -/
theorem validating_equiv_nonvalidating (validate recordOk : String → Category → Bool)
    (loading loaded : List FileInfo)
    (hall : ∀ f ∈ loading, validate f.path f.data_type = true) :
    upload_all_files validate recordOk loading loaded =
      upload_all_files_backend recordOk loading loaded ∧
    ((∀ f ∈ loading, recordOk f.path f.data_type = true) → loading ≠ [] →
      (upload_all_files validate recordOk loading loaded).loading = []) := by
  have hv : loading.filter (fun f => validate f.path f.data_type) = loading :=
    List.filter_eq_self.mpr fun f hf => hall f hf
  have hr : loading.filter (fun f => !(validate f.path f.data_type)) = [] :=
    List.filter_eq_nil_iff.mpr fun f hf => by simp [hall f hf]
  constructor
  · by_cases hne : loading = []
    · subst hne
      rfl
    · simp [upload_all_files, upload_all_files_backend, hv, hr,
        isEmpty_false_of_ne_nil hne]
  · intro hrec hne
    have hloop := recordLoop_all_ok recordOk loading hrec
    simp [upload_all_files, hv, hr, isEmpty_false_of_ne_nil hne, hloop]

/-- Witness for C9: a two-entry batch with an accept-everything validator
and a record store that fails on the second path — the two pipelines agree
even on the faulting run — plus the empty-staging conclusion under an
always-normal record store. -/
theorem validating_equiv_nonvalidating_witness :
    (upload_all_files (fun _ _ => true) (fun p _ => p == "a.csv")
        [aCsv, bXlsx] [] =
      upload_all_files_backend (fun p _ => p == "a.csv") [aCsv, bXlsx] []) ∧
    (upload_all_files (fun _ _ => true) (fun _ _ => true)
        [aCsv, bXlsx] []).loading = [] :=
  ⟨(validating_equiv_nonvalidating (fun _ _ => true) (fun p _ => p == "a.csv")
      [aCsv, bXlsx] [] (by decide)).1,
   (validating_equiv_nonvalidating (fun _ _ => true) (fun _ _ => true)
      [aCsv, bXlsx] [] (by decide)).2 (by decide) (by decide)⟩

/-- C5 counterexample: with two staged entries that both validate and a
record store that raises on the second path, the commit aborts after
recording `a.csv` — and, contrary to the claim, the processed entry
`a.csv` is still a member of the Staging Registry while also sitting in
the Committed Registry: the exception propagates before
`loading_files.clear()` runs, so the registries are not disjoint after an
aborted commit. -/
theorem commit_record_fault_claim_false :
    aCsv ∈ (upload_all_files (fun _ _ => true) (fun p _ => p == "a.csv")
        [aCsv, bXlsx] []).loaded ∧
    aCsv ∈ (upload_all_files (fun _ _ => true) (fun p _ => p == "a.csv")
        [aCsv, bXlsx] []).loading := by
  decide

/-- C5 (amended): if the Record Store's record call raises on validated
entry `f`, preceded by validated entries `l₁` that all record normally,
the commit aborts — the entries after `f` are never recorded, the record
calls are exactly those for `l₁` and the faulting `f`, the entries of `l₁`
remain appended to the Committed Registry — and the Staging Registry is
left entirely unchanged (the abort skips `loading_files.clear()`), so the
already-processed entries remain in staging and the two registries are not
disjoint after an aborted commit. -/
theorem commit_record_fault (validate recordOk : String → Category → Bool)
    (loading loaded l₁ l₂ : List FileInfo) (f : FileInfo)
    (hsplit : loading.filter (fun g => validate g.path g.data_type) =
      l₁ ++ f :: l₂)
    (h1 : ∀ g ∈ l₁, recordOk g.path g.data_type = true)
    (hf : recordOk f.path f.data_type = false) :
    upload_all_files validate recordOk loading loaded =
      ⟨loading, loaded ++ l₁,
        (l₁ ++ [f]).map (fun g => (g.path, g.data_type)),
        loading.filter (fun g => !(validate g.path g.data_type)),
        CommitOutcome.recordFault⟩ := by
  have hne : loading ≠ [] := by
    intro h
    rw [h] at hsplit
    simp at hsplit
  have hloop := recordLoop_fault recordOk l₁ l₂ f h1 hf
  simp [upload_all_files, isEmpty_false_of_ne_nil hne, hsplit, hloop]

/-- Witness for C5 (amended) at the counterexample's input: `l₁ = [aCsv]`,
faulting entry `bXlsx`, nothing after it. -/
theorem commit_record_fault_witness :
    upload_all_files (fun _ _ => true) (fun p _ => p == "a.csv")
        [aCsv, bXlsx] [] =
      ⟨[aCsv, bXlsx], [] ++ [aCsv],
        ([aCsv] ++ [bXlsx]).map (fun g => (g.path, g.data_type)),
        [aCsv, bXlsx].filter
          (fun g => !((fun _ _ => true) g.path g.data_type)),
        CommitOutcome.recordFault⟩ :=
  commit_record_fault (fun _ _ => true) (fun p _ => p == "a.csv")
    [aCsv, bXlsx] [] [aCsv] [] bXlsx (by decide) (by decide) (by decide)

/-- C6: `read_file` appends exactly one new entry `{path, tsun}` if and
only if the path has a recognized extension (`.csv` or `.xlsx`) and
parses; an unrecognized extension is rejected with the unsupported-format
error and no entry is added; a recognized-extension path that fails to
parse is reported as a read failure and no entry is added. -/
theorem add_file_behavior (parse : String → Bool) (filepath : String)
    (loading : List FileInfo) :
    (read_file parse filepath loading =
        (loading ++ [⟨filepath, Category.tsun⟩], AddOutcome.added) ↔
      ((pyEndsWith filepath ".csv" = true ∨ pyEndsWith filepath ".xlsx" = true) ∧
        parse filepath = true)) ∧
    ((pyEndsWith filepath ".csv" = false ∧ pyEndsWith filepath ".xlsx" = false) →
      read_file parse filepath loading = (loading, AddOutcome.unsupportedFormat)) ∧
    ((pyEndsWith filepath ".csv" = true ∨ pyEndsWith filepath ".xlsx" = true) →
      parse filepath = false →
      read_file parse filepath loading = (loading, AddOutcome.readFailure)) := by
  unfold read_file
  cases h1 : pyEndsWith filepath ".csv" <;>
    cases h2 : pyEndsWith filepath ".xlsx" <;>
    cases hp : parse filepath <;>
    simp [h1, h2, hp]

/-- Witness for C6: with a parse oracle that succeeds only on `a.csv`, a
parseable `.csv` path is appended; `notes.txt` is rejected as unsupported;
a `.xlsx` path that fails to parse is a read failure. -/
theorem add_file_behavior_witness :
    read_file (fun p => p == "a.csv") "a.csv" [] =
      ([] ++ [⟨"a.csv", Category.tsun⟩], AddOutcome.added) ∧
    read_file (fun p => p == "a.csv") "notes.txt" [] =
      ([], AddOutcome.unsupportedFormat) ∧
    read_file (fun p => p == "a.csv") "b.xlsx" [] =
      ([], AddOutcome.readFailure) :=
  ⟨(add_file_behavior (fun p => p == "a.csv") "a.csv" []).1.mpr
      (by constructor
          · left
            decide
          · decide),
   (add_file_behavior (fun p => p == "a.csv") "notes.txt" []).2.1
      (by constructor <;> decide),
   (add_file_behavior (fun p => p == "a.csv") "b.xlsx" []).2.2
      (by right
          decide)
      (by decide)⟩

/-- C10: extension recognition in `read_file` is an exact, case-sensitive
suffix test — a path is recognized (not rejected as unsupported) if and
only if it ends with the literal lowercase `.csv` or `.xlsx`; in
particular every path ending in `.CSV` or `.Xlsx` is rejected with the
unsupported-format error and no entry is appended, whatever the parse
oracle says about its content. -/
theorem extension_case_sensitive (parse : String → Bool) (filepath : String)
    (loading : List FileInfo) :
    ((read_file parse filepath loading).2 ≠ AddOutcome.unsupportedFormat ↔
      (pyEndsWith filepath ".csv" = true ∨ pyEndsWith filepath ".xlsx" = true)) ∧
    (pyEndsWith filepath ".CSV" = true →
      read_file parse filepath loading = (loading, AddOutcome.unsupportedFormat)) ∧
    (pyEndsWith filepath ".Xlsx" = true →
      read_file parse filepath loading = (loading, AddOutcome.unsupportedFormat)) := by
  refine ⟨?_, ?_, ?_⟩
  · unfold read_file
    cases h1 : pyEndsWith filepath ".csv" <;>
      cases h2 : pyEndsWith filepath ".xlsx" <;>
      cases hp : parse filepath <;>
      simp [h1, h2, hp]
  · intro h
    obtain ⟨hc, hx⟩ := not_recognized_of_CSV h
    unfold read_file
    simp [hc, hx]
  · intro h
    obtain ⟨hc, hx⟩ := not_recognized_of_Xlsx h
    unfold read_file
    simp [hc, hx]

/-- Witness for C10: `data.CSV` and `data.Xlsx` are rejected as
unsupported even with an always-succeeding parse oracle, while `data.csv`
is recognized. -/
theorem extension_case_sensitive_witness :
    (read_file (fun _ => true) "data.csv" []).2 ≠ AddOutcome.unsupportedFormat ∧
    read_file (fun _ => true) "data.CSV" [] =
      ([], AddOutcome.unsupportedFormat) ∧
    read_file (fun _ => true) "data.Xlsx" [] =
      ([], AddOutcome.unsupportedFormat) :=
  ⟨(extension_case_sensitive (fun _ => true) "data.csv" []).1.mpr
      (by left
          decide),
   (extension_case_sensitive (fun _ => true) "data.CSV" []).2.1 (by decide),
   (extension_case_sensitive (fun _ => true) "data.Xlsx" []).2.2 (by decide)⟩

end NeuroFinder
